import Mathlib

/-!
Verification of the RTP output stage of the broadcast encoder
(src/output/rtp/rtp.c and src/common/network/udp/udp.c).

The embedding models:
* the RTP packet encapsulator `write_rtp_pkt` (sequence counter, ssrc,
  cumulative counters, header serialisation, datagram construction);
* the output pacer of `open_output` (the paired payload/PCR FIFOs, the
  refill and drain loops, the clock-baseline logic);
* the reuse-option handling and failure paths of `udp_open`.

Machine integers are modelled as `Nat` with explicit `% 2^w` where the C
types wrap (uint16_t sequence number, uint32_t counters); fallible calls
(`udp_write`, `setsockopt`, ...) are driven by explicit boolean outcomes.
-/

/-- RTP_VERSION from rtp.c. -/
def RTP_VERSION : Nat := 2

/-- MPEG_TS_PAYLOAD_TYPE from rtp.c. -/
def MPEG_TS_PAYLOAD_TYPE : Nat := 33

/-- RTP_HEADER_SIZE from rtp.c. -/
def RTP_HEADER_SIZE : Nat := 12

/-- Modelled from the spec: `TS_PACKETS_SIZE` is defined in common/common.h,
which is not under src/.  rtp.c fixes its value: each drained block is
paired with exactly 7 PCR entries (`pcrs[7]`, `7 * sizeof(int64_t)` bytes
read from the PCR fifo per `TS_PACKETS_SIZE` payload bytes, one entry per
188-byte transport packet), so `TS_PACKETS_SIZE = 7 * 188`, matching the
spec's 1328-byte datagram (12-byte header + seven 188-byte packets). -/
def TS_PACKETS_SIZE : Nat := 7 * 188

/-- Modelled from the spec: the bit writer `bs_write` of common/bitstream.h
(not under src/) emits, for a field of width `w` and value `v`, the low `w`
bits of `v` most-significant-bit first ("big-endian / network bit order"
per the spec's wire-format section).  Bits are represented as the numbers
0/1. -/
def bsField : Nat → Nat → List Nat
  | 0, _ => []
  | w + 1, v => (v / 2 ^ w % 2) :: bsField w v

/-- One byte assembled from eight bits, most significant first
(`bs_flush` packs bits into bytes in network order). -/
def bsByte (b7 b6 b5 b4 b3 b2 b1 b0 : Nat) : Nat :=
  128 * b7 + 64 * b6 + 32 * b5 + 16 * b4 + 8 * b3 + 4 * b2 + 2 * b1 + b0

/-- Pack a bit string into bytes, eight bits at a time (any trailing
partial byte is discarded; the RTP header is exactly 96 bits). -/
def bsBytes : List Nat → List Nat
  | b7 :: b6 :: b5 :: b4 :: b3 :: b2 :: b1 :: b0 :: rest =>
      bsByte b7 b6 b5 b4 b3 b2 b1 b0 :: bsBytes rest
  | _ => []

/-- The bit string written by `write_rtp_pkt` for the 12-byte RTP header:
version(2) = 2, padding(1) = 0, extension(1) = 0, CSRC count(4) = 0,
marker(1) = 0, payload type(7) = 33, sequence(16), timestamp(32),
ssrc(32) — in that order, exactly the `bs_write` calls of rtp.c. -/
def rtpHeaderBits (seqNo tsf ssrc : Nat) : List Nat :=
  bsField 2 RTP_VERSION ++ bsField 1 0 ++ bsField 1 0 ++ bsField 4 0 ++
  bsField 1 0 ++ bsField 7 MPEG_TS_PAYLOAD_TYPE ++ bsField 16 seqNo ++
  bsField 32 tsf ++ bsField 32 ssrc

/-- The 12 header bytes emitted by `write_rtp_pkt`. -/
def rtpHeader (seqNo tsf ssrc : Nat) : List Nat :=
  bsBytes (rtpHeaderBits seqNo tsf ssrc)

theorem bsField_add (m n v : Nat) :
    bsField (m + n) v = bsField m (v / 2 ^ n) ++ bsField n v := by
  induction m with
  | zero => simp [bsField]
  | succ k ih =>
      have hd : v / 2 ^ n / 2 ^ k = v / 2 ^ (k + n) := by
        rw [Nat.div_div_eq_div_mul, ← pow_add, Nat.add_comm]
      rw [Nat.succ_add]
      simp only [bsField, List.cons_append]
      rw [ih, hd]

theorem bsField_eight (v : Nat) :
    bsField 8 v = [v / 128 % 2, v / 64 % 2, v / 32 % 2, v / 16 % 2,
                   v / 8 % 2, v / 4 % 2, v / 2 % 2, v % 2] := by
  simp [bsField]

theorem bsByte_mod (v : Nat) :
    bsByte (v / 128 % 2) (v / 64 % 2) (v / 32 % 2) (v / 16 % 2)
      (v / 8 % 2) (v / 4 % 2) (v / 2 % 2) (v % 2) = v % 256 := by
  unfold bsByte
  omega

theorem rtpHeader_eq (seqNo tsf ssrc : Nat) :
    rtpHeader seqNo tsf ssrc =
      [128, MPEG_TS_PAYLOAD_TYPE,
       seqNo / 256 % 256, seqNo % 256,
       tsf / 16777216 % 256, tsf / 65536 % 256, tsf / 256 % 256, tsf % 256,
       ssrc / 16777216 % 256, ssrc / 65536 % 256, ssrc / 256 % 256,
       ssrc % 256] := by
  have f2 : bsField 2 RTP_VERSION = [1, 0] := by decide
  have f1 : bsField 1 0 = [0] := by decide
  have f4 : bsField 4 0 = [0, 0, 0, 0] := by decide
  have f7 : bsField 7 MPEG_TS_PAYLOAD_TYPE = [0, 1, 0, 0, 0, 0, 1] := by decide
  have s16 : bsField 16 seqNo = bsField 8 (seqNo / 256) ++ bsField 8 seqNo := by
    have h := bsField_add 8 8 seqNo
    norm_num at h
    exact h
  have s32 : ∀ v : Nat, bsField 32 v =
      bsField 8 (v / 16777216) ++ (bsField 8 (v / 65536) ++
        (bsField 8 (v / 256) ++ bsField 8 v)) := by
    intro v
    have h1 := bsField_add 8 24 v
    have h2 := bsField_add 8 16 v
    have h3 := bsField_add 8 8 v
    norm_num at h1 h2 h3
    rw [h1, h2, h3]
  rw [rtpHeader, rtpHeaderBits, f2, f1, f4, f7, s16, s32 tsf, s32 ssrc]
  simp only [bsField_eight, List.cons_append, List.nil_append, List.append_assoc]
  simp only [bsBytes, bsByte_mod]
  norm_num [bsByte, MPEG_TS_PAYLOAD_TYPE]

theorem rtpHeader_length (seqNo tsf ssrc : Nat) :
    (rtpHeader seqNo tsf ssrc).length = RTP_HEADER_SIZE := by
  rw [rtpHeader_eq]
  rfl

/-- Writing `src` into the byte buffer `buf` at offset `off`, as C's
`memcpy(&buf[off], src, src.length)` does (callers keep `off + src.length`
within the buffer). -/
def memcpyAt (buf : List Nat) (off : Nat) (src : List Nat) : List Nat :=
  buf.take off ++ src ++ buf.drop (off + src.length)

/-- Per-destination RTP session state, `obe_rtp_ctx` of rtp.c: the
uint16_t sequence counter, the uint32_t ssrc and the uint32_t cumulative
packet/octet counters. -/
structure RtpCtx where
  seq : Nat
  ssrc : Nat
  pkt_cnt : Nat
  octet_cnt : Nat
deriving DecidableEq, Repr

/-- Result of one `write_rtp_pkt` call: the C return value, the updated
session state, and the datagram handed to `udp_write`. -/
structure WriteResult where
  ret : Int
  ctx : RtpCtx
  datagram : List Nat
deriving DecidableEq, Repr

/-- The buffer `write_rtp_pkt` hands to `udp_write`: the local `pkt`
buffer (`stack`, uninitialised) after the 12 header bytes are serialised
into its front and `len` payload bytes are copied behind them
(`memcpy(&pkt[RTP_HEADER_SIZE], data, len)`).  The timestamp argument is
an int64_t truncated to the 32-bit header field; the ssrc is a uint32. -/
def rtpDatagram (c : RtpCtx) (stack data : List Nat) (len : Nat)
    (timestamp : Int) : List Nat :=
  memcpyAt
    (memcpyAt stack 0
      (rtpHeader c.seq ((timestamp % (2 ^ 32 : Int)).toNat) (c.ssrc % 2 ^ 32)))
    RTP_HEADER_SIZE (data.take len)

/-- `write_rtp_pkt` of rtp.c.  `sendOk` is the outcome of the `udp_write`
call.  `seq` increments (mod 2^16, uint16_t) on every call, before the
send; the cumulative uint32 counters only advance when the send
succeeded; on failure the function returns -1, on success 0. -/
def write_rtp_pkt (c : RtpCtx) (stack : List Nat) (data : List Nat)
    (len : Nat) (timestamp : Int) (sendOk : Bool) : WriteResult :=
  if sendOk then
    { ret := 0,
      ctx := { seq := (c.seq + 1) % 2 ^ 16, ssrc := c.ssrc,
               pkt_cnt := (c.pkt_cnt + 1) % 2 ^ 32,
               octet_cnt := (c.octet_cnt + len) % 2 ^ 32 },
      datagram := rtpDatagram c stack data len timestamp }
  else
    { ret := -1,
      ctx := { seq := (c.seq + 1) % 2 ^ 16, ssrc := c.ssrc,
               pkt_cnt := c.pkt_cnt, octet_cnt := c.octet_cnt },
      datagram := rtpDatagram c stack data len timestamp }

/-- The fields recovered by reading a datagram back per the 12-byte
header layout of the spec's wire format (big-endian fields). -/
structure ParsedPkt where
  version : Nat
  payloadType : Nat
  seqNo : Nat
  tsField : Nat
  ssrcField : Nat
  payload : List Nat
deriving DecidableEq, Repr

/-- Byte `i` of a datagram (0 when out of range). -/
def byteAt (d : List Nat) (i : Nat) : Nat := d.getD i 0

/-- Parse a datagram per the spec's wire format: version from the top two
bits of byte 0, payload type from the low seven bits of byte 1, then the
big-endian 16-bit sequence number, 32-bit timestamp and 32-bit ssrc,
followed by the payload. -/
def parse_rtp (d : List Nat) : ParsedPkt :=
  { version := byteAt d 0 / 64,
    payloadType := byteAt d 1 % 128,
    seqNo := byteAt d 2 * 256 + byteAt d 3,
    tsField := byteAt d 4 * 16777216 + byteAt d 5 * 65536 +
               byteAt d 6 * 256 + byteAt d 7,
    ssrcField := byteAt d 8 * 16777216 + byteAt d 9 * 65536 +
                 byteAt d 10 * 256 + byteAt d 11,
    payload := d.drop RTP_HEADER_SIZE }

theorem rtpDatagram_eq (c : RtpCtx) (stack data : List Nat)
    (len : Nat) (timestamp : Int) :
    rtpDatagram c stack data len timestamp =
      rtpHeader c.seq ((timestamp % (2 ^ 32 : Int)).toNat) (c.ssrc % 2 ^ 32)
        ++ (data.take len
        ++ stack.drop (RTP_HEADER_SIZE + min len data.length)) := by
  have h1 : ∀ H : List Nat, H.length = RTP_HEADER_SIZE →
      memcpyAt stack 0 H = H ++ stack.drop RTP_HEADER_SIZE := by
    intro H hH
    unfold memcpyAt
    rw [List.take_zero, List.nil_append, Nat.zero_add, hH]
  have h2 : ∀ H : List Nat, H.length = RTP_HEADER_SIZE →
      memcpyAt (H ++ stack.drop RTP_HEADER_SIZE) RTP_HEADER_SIZE (data.take len) =
        H ++ (data.take len ++ stack.drop (RTP_HEADER_SIZE + min len data.length)) := by
    intro H hH
    unfold memcpyAt
    rw [List.length_take, List.take_left' hH]
    have hdrop : (H ++ stack.drop RTP_HEADER_SIZE).drop
        (RTP_HEADER_SIZE + min len data.length) =
        stack.drop (RTP_HEADER_SIZE + min len data.length) := by
      rw [← List.drop_drop, List.drop_left' hH, List.drop_drop, Nat.add_comm]
    rw [hdrop, List.append_assoc]
  unfold rtpDatagram
  rw [h1 _ (rtpHeader_length _ _ _), h2 _ (rtpHeader_length _ _ _)]

theorem write_rtp_pkt_datagram (c : RtpCtx) (stack data : List Nat)
    (len : Nat) (timestamp : Int) (sendOk : Bool) :
    (write_rtp_pkt c stack data len timestamp sendOk).datagram =
      rtpHeader c.seq ((timestamp % (2 ^ 32 : Int)).toNat) (c.ssrc % 2 ^ 32)
        ++ (data.take len
        ++ stack.drop (RTP_HEADER_SIZE + min len data.length)) := by
  have : (write_rtp_pkt c stack data len timestamp sendOk).datagram =
      rtpDatagram c stack data len timestamp := by
    unfold write_rtp_pkt
    cases sendOk <;> rfl
  rw [this, rtpDatagram_eq]

theorem int_emod_toNat_lt (ts : Int) : (ts % (2 ^ 32 : Int)).toNat < 2 ^ 32 := by
  have h0 : (0 : Int) ≤ ts % (2 ^ 32 : Int) := Int.emod_nonneg ts (by norm_num)
  have h1 : ts % (2 ^ 32 : Int) < 2 ^ 32 := Int.emod_lt_of_pos ts (by norm_num)
  omega

theorem parse_write_seqNo (c : RtpCtx) (stack data : List Nat) (len : Nat)
    (ts : Int) (ok : Bool) (hseq : c.seq < 2 ^ 16) :
    (parse_rtp (write_rtp_pkt c stack data len ts ok).datagram).seqNo = c.seq := by
  rw [write_rtp_pkt_datagram, rtpHeader_eq]
  simp [parse_rtp, byteAt]
  omega

theorem parse_write_tsField (c : RtpCtx) (stack data : List Nat) (len : Nat)
    (ts : Int) (ok : Bool) :
    (parse_rtp (write_rtp_pkt c stack data len ts ok).datagram).tsField =
      (ts % (2 ^ 32 : Int)).toNat := by
  have htsf := int_emod_toNat_lt ts
  rw [write_rtp_pkt_datagram, rtpHeader_eq]
  simp [parse_rtp, byteAt]
  omega

theorem parse_write_ssrcField (c : RtpCtx) (stack data : List Nat) (len : Nat)
    (ts : Int) (ok : Bool) :
    (parse_rtp (write_rtp_pkt c stack data len ts ok).datagram).ssrcField =
      c.ssrc % 2 ^ 32 := by
  have hss : c.ssrc % 2 ^ 32 < 2 ^ 32 := Nat.mod_lt _ (by norm_num)
  rw [write_rtp_pkt_datagram, rtpHeader_eq]
  simp [parse_rtp, byteAt]
  omega

theorem parse_write_payload (c : RtpCtx) (stack data : List Nat) (len : Nat)
    (ts : Int) (ok : Bool) :
    (parse_rtp (write_rtp_pkt c stack data len ts ok).datagram).payload =
      data.take len ++ stack.drop (RTP_HEADER_SIZE + min len data.length) := by
  rw [write_rtp_pkt_datagram, rtpHeader_eq]
  simp [parse_rtp, RTP_HEADER_SIZE]

/-- Claim C5: on a send failure `write_rtp_pkt` returns -1, the sequence
counter keeps the increment performed for the attempted packet (no
rollback) and the cumulative packet/byte counters are unchanged; on a
successful send it returns 0, the sequence counter is incremented by one
(mod 2^16), the packet counter by one and the byte counter by the payload
length (both uint32). -/
theorem write_rtp_pkt_failure_success (c : RtpCtx) (stack data : List Nat)
    (len : Nat) (ts : Int) :
    ((write_rtp_pkt c stack data len ts false).ret = -1 ∧
     (write_rtp_pkt c stack data len ts false).ctx.seq = (c.seq + 1) % 2 ^ 16 ∧
     (write_rtp_pkt c stack data len ts false).ctx.pkt_cnt = c.pkt_cnt ∧
     (write_rtp_pkt c stack data len ts false).ctx.octet_cnt = c.octet_cnt) ∧
    ((write_rtp_pkt c stack data len ts true).ret = 0 ∧
     (write_rtp_pkt c stack data len ts true).ctx.seq = (c.seq + 1) % 2 ^ 16 ∧
     (write_rtp_pkt c stack data len ts true).ctx.pkt_cnt = (c.pkt_cnt + 1) % 2 ^ 32 ∧
     (write_rtp_pkt c stack data len ts true).ctx.octet_cnt = (c.octet_cnt + len) % 2 ^ 32) := by
  unfold write_rtp_pkt
  simp

/-- Claim C6: encapsulating a 188-byte payload with timestamp `T` and
session identifier `S` via `write_rtp_pkt` and parsing the emitted
datagram per the 12-byte header layout recovers the payload bytes
unchanged, a 32-bit timestamp field equal to `T mod 2^32`, and a
session-identifier field equal to `S`. -/
theorem rtp_roundtrip (c : RtpCtx) (stack data : List Nat) (T : Int)
    (ok : Bool) (hdata : data.length = 188) (hS : c.ssrc < 2 ^ 32) :
    (parse_rtp (write_rtp_pkt c stack data 188 T ok).datagram).payload.take 188 =
      data ∧
    (parse_rtp (write_rtp_pkt c stack data 188 T ok).datagram).tsField =
      (T % (2 ^ 32 : Int)).toNat ∧
    (parse_rtp (write_rtp_pkt c stack data 188 T ok).datagram).ssrcField =
      c.ssrc := by
  refine ⟨?_, parse_write_tsField c stack data 188 T ok, ?_⟩
  · rw [parse_write_payload]
    have ht : data.take 188 = data := by
      rw [← hdata]
      exact List.take_length data
    have hl : (data.take 188).length = 188 := by rw [ht, hdata]
    rw [ht] at hl ⊢
    rw [List.take_left' hl]
  · rw [parse_write_ssrcField, Nat.mod_eq_of_lt hS]

/-- Concrete witness for C6 at a specific payload, timestamp and session
identifier. -/
theorem rtp_roundtrip_witness :
    (parse_rtp (write_rtp_pkt ⟨3, 77, 0, 0⟩ (List.replicate 1328 0)
        (List.replicate 188 9) 188 5000000000 true).datagram).payload.take 188 =
      List.replicate 188 9 ∧
    (parse_rtp (write_rtp_pkt ⟨3, 77, 0, 0⟩ (List.replicate 1328 0)
        (List.replicate 188 9) 188 5000000000 true).datagram).tsField =
      ((5000000000 : Int) % (2 ^ 32 : Int)).toNat ∧
    (parse_rtp (write_rtp_pkt ⟨3, 77, 0, 0⟩ (List.replicate 1328 0)
        (List.replicate 188 9) 188 5000000000 true).datagram).ssrcField = 77 :=
  rtp_roundtrip ⟨3, 77, 0, 0⟩ (List.replicate 1328 0) (List.replicate 188 9)
    5000000000 true (by rw [List.length_replicate]) (by norm_num)

/-- Claim C10: for every call to `write_rtp_pkt`, the datagram handed to
the transport socket has the fixed length `RTP_HEADER_SIZE +
TS_PACKETS_SIZE` (1328 bytes), independent of `len`, and only the first
`len` bytes after the 12-byte header come from the caller's payload. -/
theorem write_rtp_pkt_fixed_datagram_size (c : RtpCtx) (stack data : List Nat)
    (len : Nat) (ts : Int) (ok : Bool)
    (hstack : stack.length = RTP_HEADER_SIZE + TS_PACKETS_SIZE)
    (hlen : len ≤ TS_PACKETS_SIZE) (hdata : len ≤ data.length) :
    (write_rtp_pkt c stack data len ts ok).datagram.length =
      RTP_HEADER_SIZE + TS_PACKETS_SIZE ∧
    ((write_rtp_pkt c stack data len ts ok).datagram.drop RTP_HEADER_SIZE).take len =
      data.take len := by
  have hmin : min len data.length = len := Nat.min_eq_left hdata
  have htk : (data.take len).length = len := by
    rw [List.length_take, hmin]
  constructor
  · rw [write_rtp_pkt_datagram]
    simp only [List.length_append, rtpHeader_length, List.length_take,
      List.length_drop, hmin, hstack]
    simp only [RTP_HEADER_SIZE, TS_PACKETS_SIZE] at hlen ⊢
    omega
  · rw [write_rtp_pkt_datagram, List.drop_left' (rtpHeader_length _ _ _),
      List.take_left' htk]

/-- Concrete witness for C10: a 188-byte payload still produces a
full-size 1328-byte datagram. -/
theorem write_rtp_pkt_fixed_datagram_size_witness :
    (write_rtp_pkt ⟨0, 0, 0, 0⟩ (List.replicate 1328 2) (List.replicate 188 9)
      188 0 true).datagram.length = RTP_HEADER_SIZE + TS_PACKETS_SIZE ∧
    ((write_rtp_pkt ⟨0, 0, 0, 0⟩ (List.replicate 1328 2) (List.replicate 188 9)
      188 0 true).datagram.drop RTP_HEADER_SIZE).take 188 =
      (List.replicate 188 9).take 188 :=
  write_rtp_pkt_fixed_datagram_size ⟨0, 0, 0, 0⟩ (List.replicate 1328 2)
    (List.replicate 188 9) 188 0 true
    (by rw [List.length_replicate]; rfl)
    (by norm_num [TS_PACKETS_SIZE])
    (by rw [List.length_replicate])

/-- One delivery attempt of the pacer: the arguments rtp.c passes to
`write_rtp_pkt` plus the outcome of the underlying `udp_write`. -/
structure WriteCall where
  data : List Nat
  len : Nat
  timestamp : Int
  sendOk : Bool
deriving DecidableEq, Repr

/-- A sequence of consecutive `write_rtp_pkt` calls on one session,
threading the session state; returns the emitted datagrams in order. -/
def runWrites (c : RtpCtx) (stack : List Nat) : List WriteCall → List (List Nat)
  | [] => []
  | w :: rest =>
      (write_rtp_pkt c stack w.data w.len w.timestamp w.sendOk).datagram ::
        runWrites (write_rtp_pkt c stack w.data w.len w.timestamp w.sendOk).ctx
          stack rest

theorem write_rtp_pkt_ctx_seq (c : RtpCtx) (stack data : List Nat)
    (len : Nat) (ts : Int) (ok : Bool) :
    (write_rtp_pkt c stack data len ts ok).ctx.seq = (c.seq + 1) % 2 ^ 16 := by
  unfold write_rtp_pkt
  cases ok <;> rfl

/-- Claim C1: over any sequence of N consecutive `write_rtp_pkt` calls on
one session, none of which fails, the 16-bit sequence numbers written
into the emitted headers are `start, start+1, ..., start+N-1` modulo
2^16 — strictly increasing mod 2^16 and gap-free in delivery-attempt
order. -/
theorem rtp_seq_numbers_consecutive (c : RtpCtx) (stack : List Nat)
    (calls : List WriteCall) (hseq : c.seq < 2 ^ 16)
    (hok : ∀ w ∈ calls, w.sendOk = true) :
    (runWrites c stack calls).map (fun d => (parse_rtp d).seqNo) =
      (List.range calls.length).map (fun i => (c.seq + i) % 2 ^ 16) := by
  induction calls generalizing c with
  | nil => simp [runWrites]
  | cons w rest ih =>
      rw [runWrites]
      simp only [List.map_cons, List.length_cons, List.range_succ_eq_map,
        List.map_map]
      rw [List.cons_eq_cons]
      constructor
      · rw [parse_write_seqNo _ _ _ _ _ _ hseq, Nat.add_zero, Nat.mod_eq_of_lt hseq]
      · have hseq' :
            (write_rtp_pkt c stack w.data w.len w.timestamp w.sendOk).ctx.seq < 2 ^ 16 := by
          rw [write_rtp_pkt_ctx_seq]
          exact Nat.mod_lt _ (by norm_num)
        rw [ih _ hseq' (fun x hx => hok x (List.mem_cons_of_mem w hx))]
        apply List.map_congr_left
        intro i _
        simp only [Function.comp_apply, write_rtp_pkt_ctx_seq, Nat.mod_add_mod]
        congr 1
        omega

/-- Concrete witness for C1: two successful calls starting at sequence
number 4 emit sequence numbers 4 and 5. -/
theorem rtp_seq_numbers_consecutive_witness :
    (runWrites ⟨4, 9, 0, 0⟩ (List.replicate 1328 0)
        [⟨[1, 2], 2, 100, true⟩, ⟨[3, 4], 2, 200, true⟩]).map
        (fun d => (parse_rtp d).seqNo) =
      (List.range
        ([⟨[1, 2], 2, 100, true⟩, ⟨[3, 4], 2, 200, true⟩] : List WriteCall).length).map
        (fun i => (4 + i) % 2 ^ 16) :=
  rtp_seq_numbers_consecutive ⟨4, 9, 0, 0⟩ (List.replicate 1328 0)
    [⟨[1, 2], 2, 100, true⟩, ⟨[3, 4], 2, 200, true⟩]
    (by norm_num)
    (by decide)

/-- The two core-owned ring buffers of `open_output` in rtp.c:
`fifo_data` holds raw transport-stream bytes, `fifo_pcr` holds the
clock-reference (PCR) entries, one per 188 payload bytes.  `av_fifo_size`
of the PCR fifo is 8 bytes per entry; the model tracks whole entries. -/
structure PacerFifos where
  fifo_data : List Nat
  fifo_pcr : List Int
deriving DecidableEq, Repr

/-- One multiplexed data unit `obe_muxed_data_t` as consumed by
`open_output`: `len` payload bytes and the parallel `pcr_list`. -/
structure MuxedData where
  data : List Nat
  pcr_list : List Int
deriving DecidableEq, Repr

/-- One iteration of the refill loop of `open_output`: append
`muxed_data[i]->data` (len bytes) to the data fifo and
`(len * sizeof(int64_t)) / 188` bytes — i.e. `len * 8 / 188 / 8`
complete int64 entries — of `pcr_list` to the PCR fifo. -/
def refill (st : PacerFifos) (m : MuxedData) : PacerFifos :=
  { fifo_data := st.fifo_data ++ m.data,
    fifo_pcr := st.fifo_pcr ++ m.pcr_list.take (m.data.length * 8 / 188 / 8) }

/-- One test-and-pop of the drain loop of `open_output`: when the data
fifo holds at least `TS_PACKETS_SIZE` bytes, read one
`TS_PACKETS_SIZE`-byte block into `rtp_buf` and 7 PCR entries into
`pcrs`; otherwise the `while` guard fails and nothing is popped. -/
def drainStep (st : PacerFifos) :
    Option ((List Nat × List Int) × PacerFifos) :=
  if TS_PACKETS_SIZE ≤ st.fifo_data.length then
    some ((st.fifo_data.take TS_PACKETS_SIZE, st.fifo_pcr.take 7),
          ⟨st.fifo_data.drop TS_PACKETS_SIZE, st.fifo_pcr.drop 7⟩)
  else
    none

/-- An observation-to-observation operation on the paired FIFOs: either a
paired refill from one multiplexed data unit, or one paired drain
(a no-op when the drain guard fails). -/
inductive PacerOp
  | refillOp (m : MuxedData)
  | drainOp
deriving DecidableEq, Repr

/-- The multiplexer contract on a data unit: one PCR entry per contained
188-byte transport packet, so the unit length is a whole number of
packets. -/
def validOp : PacerOp → Bool
  | .refillOp m => m.pcr_list.length * 188 == m.data.length
  | .drainOp => true

def applyOp (st : PacerFifos) : PacerOp → PacerFifos
  | .refillOp m => refill st m
  | .drainOp =>
      match drainStep st with
      | some (_, st') => st'
      | none => st

/-- The lockstep size invariant of the two FIFOs (spec §3): PCR entry
count times 188 equals the payload byte count. -/
def fifoInv (st : PacerFifos) : Prop :=
  st.fifo_pcr.length * 188 = st.fifo_data.length

theorem refill_fifoInv (st : PacerFifos) (m : MuxedData)
    (hinv : fifoInv st) (hm : m.pcr_list.length * 188 = m.data.length) :
    fifoInv (refill st m) := by
  unfold fifoInv refill at *
  simp only [List.length_append, List.length_take]
  omega

theorem drain_fifoInv (st st' : PacerFifos) (out : List Nat × List Int)
    (hinv : fifoInv st) (h : drainStep st = some (out, st')) :
    fifoInv st' := by
  unfold fifoInv drainStep at *
  by_cases hc : TS_PACKETS_SIZE ≤ st.fifo_data.length
  · rw [if_pos hc] at h
    injection h with h
    injection h with h1 h2
    subst h2
    simp only [List.length_drop, TS_PACKETS_SIZE] at *
    omega
  · rw [if_neg hc] at h
    exact absurd h (by simp)

theorem applyOp_fifoInv (st : PacerFifos) (op : PacerOp)
    (hinv : fifoInv st) (hop : validOp op = true) :
    fifoInv (applyOp st op) := by
  cases op with
  | refillOp m =>
      exact refill_fifoInv st m hinv (by simpa [validOp, Nat.beq_eq] using hop)
  | drainOp =>
      unfold applyOp
      cases h : drainStep st with
      | none => exact hinv
      | some p => exact drain_fifoInv st p.2 p.1 hinv (by rw [h])

/-- Claim C2: starting from empty FIFOs, after every paired refill (from
a multiplexed data unit whose length is a whole number of 188-byte
packets, one PCR per packet) and after every paired drain, the number of
clock-reference entries in the PCR FIFO times 188 equals the number of
payload bytes in the data FIFO. -/
theorem pacer_fifo_lockstep_invariant (ops : List PacerOp)
    (hops : ops.all validOp = true) :
    fifoInv (ops.foldl applyOp ⟨[], []⟩) := by
  have general : ∀ (l : List PacerOp) (st : PacerFifos), fifoInv st →
      l.all validOp = true → fifoInv (l.foldl applyOp st) := by
    intro l
    induction l with
    | nil => intro st h _; exact h
    | cons op rest ih =>
        intro st hst hall
        rw [List.all_cons, Bool.and_eq_true] at hall
        exact ih (applyOp st op) (applyOp_fifoInv st op hst hall.1) hall.2
  exact general ops ⟨[], []⟩ (by unfold fifoInv; rfl) hops

set_option maxRecDepth 8000 in
/-- Concrete witness for C2: two refills (2-packet and 7-packet units)
interleaved with drains keep the lockstep invariant. -/
theorem pacer_fifo_lockstep_invariant_witness :
    fifoInv (([PacerOp.refillOp ⟨List.replicate 376 0, [10, 20]⟩,
               PacerOp.drainOp,
               PacerOp.refillOp ⟨List.replicate 1316 1, [1, 2, 3, 4, 5, 6, 7]⟩,
               PacerOp.drainOp] : List PacerOp).foldl applyOp ⟨[], []⟩) :=
  pacer_fifo_lockstep_invariant _ (by decide)

/-- The pacing clock variables of `open_output`: `last_clock` (set to -1
when no baseline exists), `last_pcr`, and the baseline pair
`start_mpeg_time` / `start_pcr_time`. -/
structure ClockState where
  last_clock : Int
  last_pcr : Int
  start_mpeg_time : Int
  start_pcr_time : Int
deriving DecidableEq, Repr

/-- The clock logic executed for each popped block in `open_output`
(before the `write_rtp_pkt` call): when a baseline exists
(`last_clock != -1`), sleep until `pcrs[0] - start_pcr_time +
start_mpeg_time`; when it does not, establish the baseline from the
current input-clock reading and `pcrs[0]` and do not sleep; in both
cases record `last_clock` from the wall clock and `last_pcr = pcrs[0]`.
Returns the sleep deadline passed to `sleep_input_clock` (none when no
sleep happens) and the updated clock state. -/
def paceStep (cs : ClockState) (pcr0 inputNow wallNow : Int) :
    Option Int × ClockState :=
  ((if cs.last_clock ≠ -1 then some (pcr0 - cs.start_pcr_time + cs.start_mpeg_time)
    else none),
   { last_clock := wallNow,
     last_pcr := pcr0,
     start_mpeg_time := if cs.last_clock = -1 then inputNow else cs.start_mpeg_time,
     start_pcr_time := if cs.last_clock = -1 then pcr0 else cs.start_pcr_time })

/-- The drop handling of `open_output` (`h->output_drop` observed): the
clock baseline flag is cleared by setting `last_clock = -1`. -/
def outputDropReset (cs : ClockState) : ClockState :=
  { cs with last_clock := -1 }

/-- The pacer-thread state threaded through the drain loop: the RTP
session state, the clock variables and the two FIFOs. -/
structure DrainState where
  ctx : RtpCtx
  clock : ClockState
  fifos : PacerFifos
deriving DecidableEq, Repr

/-- Result of running the drain loop of `open_output` to completion or
to the first send failure: the final state, the (block, PCR-entries)
pairs popped and handed to `write_rtp_pkt` in order, the per-attempt
sleep deadlines, and whether the loop exited through its guard
(`completed = true`) rather than through a send failure (`return NULL`). -/
structure DrainResult where
  final : DrainState
  sent : List (List Nat × List Int)
  sleeps : List (Option Int)
  completed : Bool
deriving DecidableEq, Repr

/-- The drain loop of `open_output`:
`while (av_fifo_size(fifo_data) >= TS_PACKETS_SIZE)` pop one
`TS_PACKETS_SIZE`-byte block and 7 PCR entries, run the clock/sleep
logic on `pcrs[0]`, then `write_rtp_pkt`; a failed send makes the thread
function return (loop aborted).  `ok k` is the outcome of the k-th send,
`inputClk`/`wallClk` are the clock readings of the k-th iteration. -/
def drainLoop (ok : Nat → Bool) (inputClk wallClk : Nat → Int)
    (stack : List Nat) (k : Nat) (st : DrainState) : DrainResult :=
  if h : TS_PACKETS_SIZE ≤ st.fifos.fifo_data.length then
    let block := st.fifos.fifo_data.take TS_PACKETS_SIZE
    let pcrs := st.fifos.fifo_pcr.take 7
    let pcr0 : Int := pcrs.headD 0
    let fifos' : PacerFifos :=
      ⟨st.fifos.fifo_data.drop TS_PACKETS_SIZE, st.fifos.fifo_pcr.drop 7⟩
    let step := paceStep st.clock pcr0 (inputClk k) (wallClk k)
    let w := write_rtp_pkt st.ctx stack block TS_PACKETS_SIZE pcr0 (ok k)
    if ok k then
      let r := drainLoop ok inputClk wallClk stack (k + 1) ⟨w.ctx, step.2, fifos'⟩
      { final := r.final, sent := (block, pcrs) :: r.sent,
        sleeps := step.1 :: r.sleeps, completed := r.completed }
    else
      { final := ⟨w.ctx, step.2, fifos'⟩, sent := [(block, pcrs)],
        sleeps := [step.1], completed := false }
  else
    { final := st, sent := [], sleeps := [], completed := true }
termination_by st.fifos.fifo_data.length
decreasing_by
  simp only [List.length_drop]
  have hpos : 0 < TS_PACKETS_SIZE := by norm_num [TS_PACKETS_SIZE]
  omega

theorem drainLoop_stop (ok : Nat → Bool) (ic wc : Nat → Int)
    (stack : List Nat) (k : Nat) (st : DrainState)
    (h : st.fifos.fifo_data.length < TS_PACKETS_SIZE) :
    drainLoop ok ic wc stack k st =
      { final := st, sent := [], sleeps := [], completed := true } := by
  rw [drainLoop.eq_def]
  rw [dif_neg (by omega)]

theorem drainLoop_fail (ok : Nat → Bool) (ic wc : Nat → Int)
    (stack : List Nat) (k : Nat) (st : DrainState)
    (h : TS_PACKETS_SIZE ≤ st.fifos.fifo_data.length) (hok : ok k = false) :
    drainLoop ok ic wc stack k st =
      { final := ⟨(write_rtp_pkt st.ctx stack (st.fifos.fifo_data.take TS_PACKETS_SIZE)
                    TS_PACKETS_SIZE ((st.fifos.fifo_pcr.take 7).headD 0) false).ctx,
                  (paceStep st.clock ((st.fifos.fifo_pcr.take 7).headD 0) (ic k) (wc k)).2,
                  ⟨st.fifos.fifo_data.drop TS_PACKETS_SIZE, st.fifos.fifo_pcr.drop 7⟩⟩,
        sent := [(st.fifos.fifo_data.take TS_PACKETS_SIZE, st.fifos.fifo_pcr.take 7)],
        sleeps := [(paceStep st.clock ((st.fifos.fifo_pcr.take 7).headD 0) (ic k) (wc k)).1],
        completed := false } := by
  rw [drainLoop.eq_def]
  rw [dif_pos h, hok]
  simp

theorem drainLoop_cont (ok : Nat → Bool) (ic wc : Nat → Int)
    (stack : List Nat) (k : Nat) (st : DrainState)
    (h : TS_PACKETS_SIZE ≤ st.fifos.fifo_data.length) (hok : ok k = true) :
    drainLoop ok ic wc stack k st =
      { final := (drainLoop ok ic wc stack (k + 1)
          ⟨(write_rtp_pkt st.ctx stack (st.fifos.fifo_data.take TS_PACKETS_SIZE)
              TS_PACKETS_SIZE ((st.fifos.fifo_pcr.take 7).headD 0) true).ctx,
            (paceStep st.clock ((st.fifos.fifo_pcr.take 7).headD 0) (ic k) (wc k)).2,
            ⟨st.fifos.fifo_data.drop TS_PACKETS_SIZE, st.fifos.fifo_pcr.drop 7⟩⟩).final,
        sent := (st.fifos.fifo_data.take TS_PACKETS_SIZE, st.fifos.fifo_pcr.take 7) ::
          (drainLoop ok ic wc stack (k + 1)
            ⟨(write_rtp_pkt st.ctx stack (st.fifos.fifo_data.take TS_PACKETS_SIZE)
                TS_PACKETS_SIZE ((st.fifos.fifo_pcr.take 7).headD 0) true).ctx,
              (paceStep st.clock ((st.fifos.fifo_pcr.take 7).headD 0) (ic k) (wc k)).2,
              ⟨st.fifos.fifo_data.drop TS_PACKETS_SIZE, st.fifos.fifo_pcr.drop 7⟩⟩).sent,
        sleeps := (paceStep st.clock ((st.fifos.fifo_pcr.take 7).headD 0) (ic k) (wc k)).1 ::
          (drainLoop ok ic wc stack (k + 1)
            ⟨(write_rtp_pkt st.ctx stack (st.fifos.fifo_data.take TS_PACKETS_SIZE)
                TS_PACKETS_SIZE ((st.fifos.fifo_pcr.take 7).headD 0) true).ctx,
              (paceStep st.clock ((st.fifos.fifo_pcr.take 7).headD 0) (ic k) (wc k)).2,
              ⟨st.fifos.fifo_data.drop TS_PACKETS_SIZE, st.fifos.fifo_pcr.drop 7⟩⟩).sleeps,
        completed := (drainLoop ok ic wc stack (k + 1)
          ⟨(write_rtp_pkt st.ctx stack (st.fifos.fifo_data.take TS_PACKETS_SIZE)
              TS_PACKETS_SIZE ((st.fifos.fifo_pcr.take 7).headD 0) true).ctx,
            (paceStep st.clock ((st.fifos.fifo_pcr.take 7).headD 0) (ic k) (wc k)).2,
            ⟨st.fifos.fifo_data.drop TS_PACKETS_SIZE, st.fifos.fifo_pcr.drop 7⟩⟩).completed } := by
  rw [drainLoop.eq_def]
  rw [dif_pos h, hok]
  simp

/-- Claim C4: for every packet the pacer sends, if a clock baseline
exists (`last_clock != -1`) the pacer sleeps until
`baseline_wallclock + (packet_clockref - baseline_clockref)`
(i.e. `start_mpeg_time + (pcrs[0] - start_pcr_time)`); if no baseline
exists — first packet since start, or first packet after a drop signal
cleared the baseline — the pacer establishes the baseline from the
current clock reading and that packet's clock reference and performs
zero sleep for that packet. -/
theorem pacer_clock_baseline (cs : ClockState) (p i w p2 i2 w2 : Int) :
    (cs.last_clock ≠ -1 →
      (paceStep cs p i w).1 = some (cs.start_mpeg_time + (p - cs.start_pcr_time))) ∧
    (cs.last_clock = -1 →
      (paceStep cs p i w).1 = none ∧
      (paceStep cs p i w).2.start_mpeg_time = i ∧
      (paceStep cs p i w).2.start_pcr_time = p) ∧
    (paceStep (outputDropReset cs) p i w).1 = none ∧
    (w ≠ -1 →
      (paceStep (paceStep (outputDropReset cs) p i w).2 p2 i2 w2).1 =
        some (i + (p2 - p))) := by
  refine ⟨?_, ?_, ?_, ?_⟩
  · intro h
    simp only [paceStep, if_pos h, Option.some.injEq]
    omega
  · intro h
    simp [paceStep, h]
  · simp [paceStep, outputDropReset]
  · intro hw
    simp [paceStep, outputDropReset, hw]
    omega

/-- Concrete witness for C4: with an established baseline the sleep
deadline is the baseline formula; with the baseline cleared the packet
sleeps zero and rebaselines. -/
theorem pacer_clock_baseline_witness :
    (paceStep ⟨5, 0, 100, 50⟩ 60 7 8).1 = some (100 + (60 - 50)) ∧
    ((paceStep ⟨-1, 0, 100, 50⟩ 60 7 8).1 = none ∧
      (paceStep ⟨-1, 0, 100, 50⟩ 60 7 8).2.start_mpeg_time = 7 ∧
      (paceStep ⟨-1, 0, 100, 50⟩ 60 7 8).2.start_pcr_time = 60) ∧
    (paceStep (paceStep (outputDropReset ⟨5, 0, 100, 50⟩) 60 7 8).2 61 9 10).1 =
      some (7 + (61 - 60)) :=
  ⟨(pacer_clock_baseline ⟨5, 0, 100, 50⟩ 60 7 8 0 0 0).1 (by decide),
   (pacer_clock_baseline ⟨-1, 0, 100, 50⟩ 60 7 8 0 0 0).2.1 rfl,
   (pacer_clock_baseline ⟨5, 0, 100, 50⟩ 60 7 8 61 9 10).2.2.2 (by decide)⟩

set_option maxRecDepth 4000 in
/-- Counterexample to claim C3 as stated: a payload FIFO holding exactly
one full 188-byte transport-stream packet (with its matching clock
reference) is not drained at all — the loop guard requires
`TS_PACKETS_SIZE` (1316) buffered bytes, so nothing is popped and
nothing is handed to the encapsulator. -/
theorem drain_single_packet_not_popped :
    188 ≤ ((⟨⟨0, 0, 0, 0⟩, ⟨-1, 0, 0, 0⟩, ⟨List.replicate 188 5, [42]⟩⟩ :
        DrainState)).fifos.fifo_data.length ∧
    (drainLoop (fun _ => true) (fun _ => 0) (fun _ => 0) (List.replicate 1328 0) 0
        ⟨⟨0, 0, 0, 0⟩, ⟨-1, 0, 0, 0⟩, ⟨List.replicate 188 5, [42]⟩⟩).sent = [] ∧
    (drainLoop (fun _ => true) (fun _ => 0) (fun _ => 0) (List.replicate 1328 0) 0
        ⟨⟨0, 0, 0, 0⟩, ⟨-1, 0, 0, 0⟩, ⟨List.replicate 188 5, [42]⟩⟩).final =
      ⟨⟨0, 0, 0, 0⟩, ⟨-1, 0, 0, 0⟩, ⟨List.replicate 188 5, [42]⟩⟩ := by
  have hlt : ((⟨⟨0, 0, 0, 0⟩, ⟨-1, 0, 0, 0⟩, ⟨List.replicate 188 5, [42]⟩⟩ :
      DrainState)).fifos.fifo_data.length < TS_PACKETS_SIZE := by
    show (List.replicate 188 5).length < TS_PACKETS_SIZE
    rw [List.length_replicate]
    norm_num [TS_PACKETS_SIZE]
  refine ⟨?_, ?_, ?_⟩
  · show 188 ≤ (List.replicate 188 5).length
    rw [List.length_replicate]
  · rw [drainLoop_stop _ _ _ _ _ _ hlt]
  · rw [drainLoop_stop _ _ _ _ _ _ hlt]

theorem drainLoop_all_ok_general (ic wc : Nat → Int) (stack : List Nat) :
    ∀ (n : Nat) (st : DrainState) (k : Nat),
      st.fifos.fifo_data.length ≤ n → fifoInv st.fifos →
      (∀ bp ∈ (drainLoop (fun _ => true) ic wc stack k st).sent,
          bp.1.length = TS_PACKETS_SIZE ∧ bp.2.length = 7) ∧
      (drainLoop (fun _ => true) ic wc stack k st).sent.length =
        st.fifos.fifo_data.length / TS_PACKETS_SIZE ∧
      ((drainLoop (fun _ => true) ic wc stack k st).sent.map Prod.fst).flatten =
        st.fifos.fifo_data.take
          (TS_PACKETS_SIZE * (st.fifos.fifo_data.length / TS_PACKETS_SIZE)) ∧
      ((drainLoop (fun _ => true) ic wc stack k st).sent.map Prod.snd).flatten =
        st.fifos.fifo_pcr.take
          (7 * (st.fifos.fifo_data.length / TS_PACKETS_SIZE)) ∧
      (drainLoop (fun _ => true) ic wc stack k st).final.fifos.fifo_data.length <
        TS_PACKETS_SIZE ∧
      (drainLoop (fun _ => true) ic wc stack k st).completed = true := by
  intro n
  induction n with
  | zero =>
      intro st k hle hinv
      have h0 : st.fifos.fifo_data.length = 0 := Nat.le_zero.mp hle
      have hlt : st.fifos.fifo_data.length < TS_PACKETS_SIZE := by
        rw [h0]; norm_num [TS_PACKETS_SIZE]
      rw [drainLoop_stop _ _ _ _ _ _ hlt]
      refine ⟨by simp, by simp [h0], by simp [h0], by simp [h0], hlt, rfl⟩
  | succ m ih =>
      intro st k hle hinv
      by_cases hc : TS_PACKETS_SIZE ≤ st.fifos.fifo_data.length
      · have hpcr : 7 ≤ st.fifos.fifo_pcr.length := by
          unfold fifoInv at hinv
          simp only [TS_PACKETS_SIZE] at hc
          omega
        rw [drainLoop_cont _ _ _ _ _ _ hc rfl]
        have hle' : (st.fifos.fifo_data.drop TS_PACKETS_SIZE).length ≤ m := by
          rw [List.length_drop]
          simp only [TS_PACKETS_SIZE] at hc ⊢
          omega
        have hinv' : fifoInv (⟨st.fifos.fifo_data.drop TS_PACKETS_SIZE,
            st.fifos.fifo_pcr.drop 7⟩ : PacerFifos) := by
          unfold fifoInv at hinv ⊢
          simp only [List.length_drop, TS_PACKETS_SIZE] at *
          omega
        obtain ⟨ihsz, ihcnt, ihfst, ihsnd, ihfin, ihcomp⟩ :=
          ih ⟨(write_rtp_pkt st.ctx stack (st.fifos.fifo_data.take TS_PACKETS_SIZE)
                TS_PACKETS_SIZE ((st.fifos.fifo_pcr.take 7).headD 0) true).ctx,
              (paceStep st.clock ((st.fifos.fifo_pcr.take 7).headD 0) (ic k) (wc k)).2,
              ⟨st.fifos.fifo_data.drop TS_PACKETS_SIZE, st.fifos.fifo_pcr.drop 7⟩⟩
            (k + 1) hle' hinv'
        have hq : (st.fifos.fifo_data.drop TS_PACKETS_SIZE).length / TS_PACKETS_SIZE + 1 =
            st.fifos.fifo_data.length / TS_PACKETS_SIZE := by
          rw [List.length_drop]
          simp only [TS_PACKETS_SIZE] at hc ⊢
          omega
        refine ⟨?_, ?_, ?_, ?_, ?_, ?_⟩
        · intro bp hbp
          rcases List.mem_cons.mp hbp with hbp | hbp
          · subst hbp
            constructor
            · rw [List.length_take]
              omega
            · rw [List.length_take]
              omega
          · exact ihsz bp hbp
        · simp only [List.length_cons, ihcnt, hq]
        · simp only [List.map_cons, List.flatten_cons, ihfst]
          rw [← List.take_add]
          congr 1
          rw [← hq]
          ring
        · simp only [List.map_cons, List.flatten_cons, ihsnd]
          rw [← List.take_add]
          congr 1
          rw [← hq]
          ring
        · exact ihfin
        · exact ihcomp
      · push_neg at hc
        rw [drainLoop_stop _ _ _ _ _ _ hc]
        have hz : st.fifos.fifo_data.length / TS_PACKETS_SIZE = 0 :=
          Nat.div_eq_of_lt hc
        refine ⟨by simp, by simp [hz], by simp [hz], by simp [hz], hc, rfl⟩

/-- Claim C3 as amended: in each iteration of the drain loop, whenever
the payload FIFO holds at least one full `TS_PACKETS_SIZE`-byte block
(1316 bytes = seven 188-byte transport-stream packets), the pacer pops
exactly one such block together with its 7 matching clock-reference
entries and hands it to the packet encapsulator; it repeats this until
fewer than `TS_PACKETS_SIZE` bytes remain buffered.  The popped blocks
and clock references are consecutive prefixes of the two FIFOs, in
order. -/
theorem drain_pops_ts_blocks (ic wc : Nat → Int) (stack : List Nat)
    (k : Nat) (st : DrainState) (hinv : fifoInv st.fifos) :
    (∀ bp ∈ (drainLoop (fun _ => true) ic wc stack k st).sent,
        bp.1.length = TS_PACKETS_SIZE ∧ bp.2.length = 7) ∧
    (drainLoop (fun _ => true) ic wc stack k st).sent.length =
      st.fifos.fifo_data.length / TS_PACKETS_SIZE ∧
    ((drainLoop (fun _ => true) ic wc stack k st).sent.map Prod.fst).flatten =
      st.fifos.fifo_data.take
        (TS_PACKETS_SIZE * (st.fifos.fifo_data.length / TS_PACKETS_SIZE)) ∧
    ((drainLoop (fun _ => true) ic wc stack k st).sent.map Prod.snd).flatten =
      st.fifos.fifo_pcr.take
        (7 * (st.fifos.fifo_data.length / TS_PACKETS_SIZE)) ∧
    (drainLoop (fun _ => true) ic wc stack k st).final.fifos.fifo_data.length <
      TS_PACKETS_SIZE ∧
    (drainLoop (fun _ => true) ic wc stack k st).completed = true :=
  drainLoop_all_ok_general ic wc stack st.fifos.fifo_data.length st k le_rfl hinv

set_option maxRecDepth 8000 in
/-- Concrete witness for the amended C3: a FIFO pair holding exactly
seven packets (1316 bytes, 7 PCR entries) is drained as one block. -/
theorem drain_pops_ts_blocks_witness :
    (∀ bp ∈ (drainLoop (fun _ => true) (fun _ => 0) (fun _ => 0)
        (List.replicate 1328 0) 0
        ⟨⟨0, 0, 0, 0⟩, ⟨-1, 0, 0, 0⟩,
         ⟨List.replicate 1316 3, [1, 2, 3, 4, 5, 6, 7]⟩⟩).sent,
        bp.1.length = TS_PACKETS_SIZE ∧ bp.2.length = 7) ∧
    (drainLoop (fun _ => true) (fun _ => 0) (fun _ => 0)
        (List.replicate 1328 0) 0
        ⟨⟨0, 0, 0, 0⟩, ⟨-1, 0, 0, 0⟩,
         ⟨List.replicate 1316 3, [1, 2, 3, 4, 5, 6, 7]⟩⟩).sent.length =
      (List.replicate (1316 : Nat) (3 : Nat)).length / TS_PACKETS_SIZE ∧
    ((drainLoop (fun _ => true) (fun _ => 0) (fun _ => 0)
        (List.replicate 1328 0) 0
        ⟨⟨0, 0, 0, 0⟩, ⟨-1, 0, 0, 0⟩,
         ⟨List.replicate 1316 3, [1, 2, 3, 4, 5, 6, 7]⟩⟩).sent.map Prod.fst).flatten =
      (List.replicate (1316 : Nat) (3 : Nat)).take
        (TS_PACKETS_SIZE * ((List.replicate (1316 : Nat) (3 : Nat)).length / TS_PACKETS_SIZE)) ∧
    ((drainLoop (fun _ => true) (fun _ => 0) (fun _ => 0)
        (List.replicate 1328 0) 0
        ⟨⟨0, 0, 0, 0⟩, ⟨-1, 0, 0, 0⟩,
         ⟨List.replicate 1316 3, [1, 2, 3, 4, 5, 6, 7]⟩⟩).sent.map Prod.snd).flatten =
      ([1, 2, 3, 4, 5, 6, 7] : List Int).take
        (7 * ((List.replicate (1316 : Nat) (3 : Nat)).length / TS_PACKETS_SIZE)) ∧
    (drainLoop (fun _ => true) (fun _ => 0) (fun _ => 0)
        (List.replicate 1328 0) 0
        ⟨⟨0, 0, 0, 0⟩, ⟨-1, 0, 0, 0⟩,
         ⟨List.replicate 1316 3, [1, 2, 3, 4, 5, 6, 7]⟩⟩).final.fifos.fifo_data.length <
      TS_PACKETS_SIZE ∧
    (drainLoop (fun _ => true) (fun _ => 0) (fun _ => 0)
        (List.replicate 1328 0) 0
        ⟨⟨0, 0, 0, 0⟩, ⟨-1, 0, 0, 0⟩,
         ⟨List.replicate 1316 3, [1, 2, 3, 4, 5, 6, 7]⟩⟩).completed = true :=
  drain_pops_ts_blocks (fun _ => 0) (fun _ => 0) (List.replicate 1328 0) 0
    ⟨⟨0, 0, 0, 0⟩, ⟨-1, 0, 0, 0⟩, ⟨List.replicate 1316 3, [1, 2, 3, 4, 5, 6, 7]⟩⟩
    (by unfold fifoInv; rw [List.length_replicate]; rfl)

/-- Claim C9: if the (kf+1)-th send of a drain batch fails after kf
successful sends, the drain loop terminates through the failure path
(the thread function returns): exactly kf+1 sends were attempted, no
further blocks were handed to the encapsulator, and the cumulative
packet counter records exactly kf successful sends. -/
theorem drain_send_failure_stops (ok : Nat → Bool) (ic wc : Nat → Int)
    (stack : List Nat) (j kf : Nat) (st : DrainState)
    (hlen : TS_PACKETS_SIZE * (kf + 1) ≤ st.fifos.fifo_data.length)
    (hpc : st.ctx.pkt_cnt < 2 ^ 32)
    (hsucc : ∀ i, i < kf → ok (j + i) = true)
    (hfail : ok (j + kf) = false) :
    (drainLoop ok ic wc stack j st).completed = false ∧
    (drainLoop ok ic wc stack j st).sent.length = kf + 1 ∧
    (drainLoop ok ic wc stack j st).final.ctx.pkt_cnt =
      (st.ctx.pkt_cnt + kf) % 2 ^ 32 := by
  induction kf generalizing j st with
  | zero =>
      have hc : TS_PACKETS_SIZE ≤ st.fifos.fifo_data.length := by
        simpa using hlen
      have hf : ok j = false := by simpa using hfail
      rw [drainLoop_fail ok ic wc stack j st hc hf]
      refine ⟨rfl, rfl, ?_⟩
      simp [write_rtp_pkt]
      omega
  | succ m ih =>
      have hc : TS_PACKETS_SIZE ≤ st.fifos.fifo_data.length := by
        refine le_trans ?_ hlen
        have : 0 < m + 1 + 1 := by omega
        exact Nat.le_mul_of_pos_right TS_PACKETS_SIZE this
      have h0 : ok j = true := by
        have := hsucc 0 (by omega)
        simpa using this
      rw [drainLoop_cont ok ic wc stack j st hc h0]
      have hctx : (write_rtp_pkt st.ctx stack
          (st.fifos.fifo_data.take TS_PACKETS_SIZE) TS_PACKETS_SIZE
          ((st.fifos.fifo_pcr.take 7).headD 0) true).ctx.pkt_cnt =
          (st.ctx.pkt_cnt + 1) % 2 ^ 32 := by
        simp [write_rtp_pkt]
      obtain ⟨ihc, ihl, ihp⟩ := ih (j + 1)
        ⟨(write_rtp_pkt st.ctx stack (st.fifos.fifo_data.take TS_PACKETS_SIZE)
            TS_PACKETS_SIZE ((st.fifos.fifo_pcr.take 7).headD 0) true).ctx,
          (paceStep st.clock ((st.fifos.fifo_pcr.take 7).headD 0) (ic j) (wc j)).2,
          ⟨st.fifos.fifo_data.drop TS_PACKETS_SIZE, st.fifos.fifo_pcr.drop 7⟩⟩
        (by
          show TS_PACKETS_SIZE * (m + 1) ≤ (st.fifos.fifo_data.drop TS_PACKETS_SIZE).length
          rw [List.length_drop]
          simp only [TS_PACKETS_SIZE] at hlen ⊢
          omega)
        (by
          show (write_rtp_pkt st.ctx stack
              (st.fifos.fifo_data.take TS_PACKETS_SIZE) TS_PACKETS_SIZE
              ((st.fifos.fifo_pcr.take 7).headD 0) true).ctx.pkt_cnt < 2 ^ 32
          rw [hctx]
          exact Nat.mod_lt _ (by norm_num))
        (by
          intro i hi
          have := hsucc (i + 1) (by omega)
          rw [show j + 1 + i = j + (i + 1) by omega]
          exact this)
        (by
          rw [show j + 1 + m = j + (m + 1) by omega]
          exact hfail)
      refine ⟨ihc, ?_, ?_⟩
      · simp only [List.length_cons, ihl]
      · rw [ihp, hctx]
        have h32 : 0 < 2 ^ 32 := by norm_num
        conv_rhs => rw [show st.ctx.pkt_cnt + (m + 1) = st.ctx.pkt_cnt + 1 + m by omega]
        rw [Nat.mod_add_mod]

set_option maxRecDepth 40000 in
/-- Concrete witness for C9: a 5-block batch whose second send fails —
the loop stops with exactly one successful send recorded. -/
theorem drain_send_failure_stops_witness :
    (drainLoop (fun n => n == 0) (fun _ => 0) (fun _ => 0) (List.replicate 1328 0) 0
        ⟨⟨0, 0, 0, 0⟩, ⟨-1, 0, 0, 0⟩,
         ⟨List.replicate 6580 1, List.replicate 35 0⟩⟩).completed = false ∧
    (drainLoop (fun n => n == 0) (fun _ => 0) (fun _ => 0) (List.replicate 1328 0) 0
        ⟨⟨0, 0, 0, 0⟩, ⟨-1, 0, 0, 0⟩,
         ⟨List.replicate 6580 1, List.replicate 35 0⟩⟩).sent.length = 1 + 1 ∧
    (drainLoop (fun n => n == 0) (fun _ => 0) (fun _ => 0) (List.replicate 1328 0) 0
        ⟨⟨0, 0, 0, 0⟩, ⟨-1, 0, 0, 0⟩,
         ⟨List.replicate 6580 1, List.replicate 35 0⟩⟩).final.ctx.pkt_cnt =
      (0 + 1) % 2 ^ 32 :=
  drain_send_failure_stops (fun n => n == 0) (fun _ => 0) (fun _ => 0)
    (List.replicate 1328 0) 0 1
    ⟨⟨0, 0, 0, 0⟩, ⟨-1, 0, 0, 0⟩, ⟨List.replicate 6580 1, List.replicate 35 0⟩⟩
    (by
      show TS_PACKETS_SIZE * (1 + 1) ≤ (List.replicate 6580 1).length
      rw [List.length_replicate]
      norm_num [TS_PACKETS_SIZE])
    (by norm_num)
    (by
      intro i hi
      have h0 : i = 0 := by omega
      subst h0
      rfl)
    rfl

/-- The state of the `reuse` option as parsed by `udp_open` from the
destination descriptor's query string: absent, present as a bare flag
(`av_find_info_tag` fills `buf` with no digits, so `strtol` consumes
nothing), or present with a numeric value. -/
inductive ReuseOpt
  | absent
  | bare
  | withValue (v : Int)
deriving DecidableEq, Repr

/-- Whether `udp_open` applies `SO_REUSEADDR` to the socket.  Mirrors
udp.c: `s->reuse_socket` starts at the parsed value (0 when the option
is absent from calloc, 1 for a bare flag), `reuse_specified` records
whether the option appeared, and the option is applied iff
`s->reuse_socket || (s->is_multicast && !reuse_specified)`. -/
def udp_open_reuse (opt : ReuseOpt) (is_multicast : Bool) : Bool :=
  match opt with
  | .absent => (decide ((0 : Int) ≠ 0)) || (is_multicast && !false)
  | .bare => (decide ((1 : Int) ≠ 0)) || (is_multicast && !true)
  | .withValue v => (decide (v ≠ 0)) || (is_multicast && !true)

/-- Claim C7: if the `reuse` option is explicitly given, the socket's
reuse setting equals the given value (a bare flag counts as enable);
if it is absent, reuse is enabled exactly when the destination address
is multicast and disabled for a unicast destination. -/
theorem udp_reuse_option_default (is_multicast : Bool) (v : Int) :
    udp_open_reuse .bare is_multicast = true ∧
    udp_open_reuse (.withValue v) is_multicast = decide (v ≠ 0) ∧
    udp_open_reuse .absent is_multicast = is_multicast := by
  refine ⟨?_, ?_, ?_⟩ <;> cases is_multicast <;> simp [udp_open_reuse]

/-- The step outcomes of one `udp_open` call: address resolution
(`udp_set_remote_url`), socket creation (`udp_socket_create`), and the
fallible `setsockopt`/`bind`/`connect` calls. -/
structure UdpOpenEnv where
  resolve_ok : Bool
  socket_ok : Bool
  reuse_ok : Bool
  bind_ok : Bool
  mcast_ok : Bool
  sndbuf_ok : Bool
  connect_ok : Bool
deriving DecidableEq, Repr

/-- The observable outcome of `udp_open`: the return value, whether
`*p_handle` was set to the new context (it is initialised to NULL and
only assigned on full success), whether a socket descriptor was
acquired, and whether that descriptor was closed again (the `fail:`
path closes `udp_fd` when it is open). -/
structure UdpOpenResult where
  ret : Int
  handle_set : Bool
  fd_acquired : Bool
  fd_closed : Bool
deriving DecidableEq, Repr

/-- `udp_open` of udp.c, as a function of the per-step outcomes.  The
steps run in source order: resolve the remote address, create the
socket, optionally apply `SO_REUSEADDR` (per `udp_open_reuse`), bind,
apply multicast options when the destination is multicast, set the send
buffer size, and optionally `connect`.  Each failure jumps to `fail:`,
which closes the descriptor when one is open, frees the context and
returns -1 with the caller's handle still NULL.
(`udp_socket_create` closes any descriptor internally on its own
failure path, so a socket-creation failure acquires nothing.) -/
def udp_open_model (env : UdpOpenEnv) (opt : ReuseOpt)
    (is_multicast is_connected : Bool) : UdpOpenResult :=
  if env.resolve_ok = false then ⟨-1, false, false, false⟩
  else if env.socket_ok = false then ⟨-1, false, false, false⟩
  else if udp_open_reuse opt is_multicast = true ∧ env.reuse_ok = false then
    ⟨-1, false, true, true⟩
  else if env.bind_ok = false then ⟨-1, false, true, true⟩
  else if is_multicast = true ∧ env.mcast_ok = false then ⟨-1, false, true, true⟩
  else if env.sndbuf_ok = false then ⟨-1, false, true, true⟩
  else if is_connected = true ∧ env.connect_ok = false then ⟨-1, false, true, true⟩
  else ⟨0, true, true, false⟩

/-- Claim C8: every outcome of `udp_open` is either full success (handle
set, descriptor owned by it) or clean failure: return value -1, the
caller's handle left NULL, and any acquired socket descriptor released —
no partial-success state is ever exposed; and a failure of any executed
step forces the failure outcome. -/
theorem udp_open_no_partial_state (env : UdpOpenEnv) (opt : ReuseOpt)
    (is_multicast is_connected : Bool) :
    (((udp_open_model env opt is_multicast is_connected).ret = 0 ∧
      (udp_open_model env opt is_multicast is_connected).handle_set = true ∧
      (udp_open_model env opt is_multicast is_connected).fd_acquired = true ∧
      (udp_open_model env opt is_multicast is_connected).fd_closed = false) ∨
     ((udp_open_model env opt is_multicast is_connected).ret = -1 ∧
      (udp_open_model env opt is_multicast is_connected).handle_set = false ∧
      ((udp_open_model env opt is_multicast is_connected).fd_acquired = true →
        (udp_open_model env opt is_multicast is_connected).fd_closed = true))) ∧
    ((env.resolve_ok = false ∨ env.socket_ok = false ∨ env.bind_ok = false ∨
      env.sndbuf_ok = false ∨
      (udp_open_reuse opt is_multicast = true ∧ env.reuse_ok = false) ∨
      (is_multicast = true ∧ env.mcast_ok = false) ∨
      (is_connected = true ∧ env.connect_ok = false)) →
      (udp_open_model env opt is_multicast is_connected).ret = -1 ∧
      (udp_open_model env opt is_multicast is_connected).handle_set = false) := by
  obtain ⟨r, s, re, b, m, sb, co⟩ := env
  unfold udp_open_model
  generalize udp_open_reuse opt is_multicast = ru
  cases r <;> cases s <;> cases re <;> cases b <;> cases m <;> cases sb <;>
    cases co <;> cases is_multicast <;> cases is_connected <;> cases ru <;>
    decide

/-- Concrete witness for C8: with a multicast destination whose bind
fails, the open reports -1, exposes no handle and closes the acquired
descriptor. -/
theorem udp_open_no_partial_state_witness :
    (((udp_open_model ⟨true, true, true, false, true, true, true⟩ .absent true false).ret = 0 ∧
      (udp_open_model ⟨true, true, true, false, true, true, true⟩ .absent true false).handle_set = true ∧
      (udp_open_model ⟨true, true, true, false, true, true, true⟩ .absent true false).fd_acquired = true ∧
      (udp_open_model ⟨true, true, true, false, true, true, true⟩ .absent true false).fd_closed = false) ∨
     ((udp_open_model ⟨true, true, true, false, true, true, true⟩ .absent true false).ret = -1 ∧
      (udp_open_model ⟨true, true, true, false, true, true, true⟩ .absent true false).handle_set = false ∧
      ((udp_open_model ⟨true, true, true, false, true, true, true⟩ .absent true false).fd_acquired = true →
        (udp_open_model ⟨true, true, true, false, true, true, true⟩ .absent true false).fd_closed = true))) ∧
    ((( ⟨true, true, true, false, true, true, true⟩ : UdpOpenEnv).resolve_ok = false ∨
      (⟨true, true, true, false, true, true, true⟩ : UdpOpenEnv).socket_ok = false ∨
      (⟨true, true, true, false, true, true, true⟩ : UdpOpenEnv).bind_ok = false ∨
      (⟨true, true, true, false, true, true, true⟩ : UdpOpenEnv).sndbuf_ok = false ∨
      (udp_open_reuse .absent true = true ∧
        (⟨true, true, true, false, true, true, true⟩ : UdpOpenEnv).reuse_ok = false) ∨
      (true = true ∧ (⟨true, true, true, false, true, true, true⟩ : UdpOpenEnv).mcast_ok = false) ∨
      (false = true ∧ (⟨true, true, true, false, true, true, true⟩ : UdpOpenEnv).connect_ok = false)) →
      (udp_open_model ⟨true, true, true, false, true, true, true⟩ .absent true false).ret = -1 ∧
      (udp_open_model ⟨true, true, true, false, true, true, true⟩ .absent true false).handle_set = false) :=
  udp_open_no_partial_state ⟨true, true, true, false, true, true, true⟩ .absent true false
